import Mathlib

/-!
Shallow embedding of `src/static/main.js` (class `StockAPI`) from the
StockSim repository, together with theorems checking the frozen claims
about its request cache and response-normalization layer.

Modelling conventions (stated once here, referenced below):

* JSON documents are the inductive `Json`; JS `undefined` (a missing
  object property) is represented by `Option`.
* JS numbers are modelled as exact rationals `ℚ`; the JS `NaN` produced
  by `parseFloat`/`parseInt` on non-numeric input is modelled as `none`.
* A JS object literal / `Map` is an insertion-ordered association list;
  `mapSet` models both `Map.prototype.set` and property assignment
  (`obj[k] = v`): it updates an existing key in place and otherwise
  appends, exactly as JS preserves insertion order.
* `Date.now()` is an explicit integer argument `now` (milliseconds);
  the two `Date.now()` reads inside one `makeRequest` call are modelled
  as the same instant.
* The transport (`fetch` + `response.json()`) is an explicit argument
  `resp : FetchResult`: either a non-ok HTTP status or a parsed body.
* In-place mutation of the caller's `params` object (line 21 of the
  source: `params.apikey = this.apiKey`) is observable through the
  `params` field of `ReqResult`, the value of the caller's object after
  the call returns.
* `JSON.stringify` is embedded for the parameter objects the client
  serializes (string/number values, no nesting); string escaping and
  the decimal rendering of non-integer numbers are not modelled (the
  source only ever serializes plain keys, plain string values and
  integer `time_period` values, where the embedding agrees).
-/

namespace StockSim

/-- A JSON value, as produced by `response.json()`. -/
inductive Json where
  | null
  | bool (b : Bool)
  | num (q : ℚ)
  | str (s : String)
  | arr (elems : List Json)
  | obj (fields : List (String × Json))

/-- A value of the `params` objects the client builds: the source only
ever stores strings and numbers there. -/
inductive PVal where
  | s (v : String)
  | n (v : ℚ)
deriving DecidableEq

/-- A request-parameter object: an insertion-ordered association list. -/
abbrev Params : Type := List (String × PVal)

/-- First-match lookup in an insertion-ordered association list, i.e.
JS property read `m[k]` / `Map.prototype.get` (objects and `Map`s hold
at most one entry per key, so first match is the match). -/
def lookupKey {α : Type} : List (String × α) → String → Option α
  | [], _ => none
  | (k', v) :: rest, k => if k' = k then some v else lookupKey rest k

/-- JS property assignment `m[k] = v` / `Map.prototype.set`: update an
existing key in place, otherwise append (insertion order preserved). -/
def mapSet {α : Type} : List (String × α) → String → α → List (String × α)
  | [], k, v => [(k, v)]
  | (k', v') :: rest, k, v =>
    if k' = k then (k, v) :: rest else (k', v') :: mapSet rest k v

/-- JS truthiness of a JSON value (`if (x)` / `x ? a : b` / `x || d`).
`NaN` (falsy in JS) does not arise because numbers are exact rationals. -/
def Json.truthy : Json → Bool
  | .null => false
  | .bool b => b
  | .num q => !(q == 0)
  | .str s => !(s == "")
  | .arr _ => true
  | .obj _ => true

/-- Property read `data[k]` on a JSON document; `none` is JS
`undefined` (also for reads on non-objects, which the source never
does on the paths modelled here). -/
def Json.getField : Json → String → Option Json
  | .obj fs, k => lookupKey fs k
  | _, _ => none

/-- The JS pattern `data[k]` used as a condition: the field's value
when it is present and truthy, otherwise `none`. -/
def Json.getTruthy (j : Json) (k : String) : Option Json :=
  match j.getField k with
  | some v => if v.truthy then some v else none
  | none => none

/-- The JS pattern `data[k] || d`. -/
def Json.getOr (j : Json) (k : String) (d : Json) : Json :=
  match j.getTruthy k with
  | some v => v
  | none => d

/-- Rendering of a JS number inside `JSON.stringify` output and query
strings. Faithful for the integers the source actually passes
(`time_period` values); the decimal rendering of non-integers is not
modelled (see the file comment). -/
def ratText (q : ℚ) : String :=
  if q.den = 1 then toString q.num else toString q

/-- Text of one parameter value as `JSON.stringify` renders it. -/
def pvalJsonText : PVal → String
  | .s v => "\"" ++ v ++ "\""
  | .n q => ratText q

/-- One `"key":value` item of `JSON.stringify` output. -/
def entryText (e : String × PVal) : String :=
  "\"" ++ e.1 ++ "\":" ++ pvalJsonText e.2

/-- Comma-separated `JSON.stringify` items, in insertion order. -/
def entriesText : List (String × PVal) → String
  | [] => ""
  | [e] => entryText e
  | e :: rest => entryText e ++ "," ++ entriesText rest

/-- `JSON.stringify(params)` (source line 12): the cache key. -/
def serializeParams (ps : Params) : String :=
  "\x7b" ++ entriesText ps ++ "\x7d"

/-- Text of one parameter value as `URLSearchParams` renders it
(percent-encoding not modelled; it never matters for the claims). -/
def pvalQueryText : PVal → String
  | .s v => v
  | .n q => ratText q

/-- `new URLSearchParams(params).toString()` (source line 24). -/
def queryText (ps : Params) : String :=
  String.intercalate "&" (ps.map fun e => e.1 ++ "=" ++ pvalQueryText e.2)

/-- One cache slot: `{data: ..., timestamp: ...}` (source lines 45-48). -/
structure CacheEntry where
  data : Json
  timestamp : ℤ

/-- The mutable state of one `StockAPI` instance (constructor,
source lines 3-8): credential, response cache, cache duration (ms).
`baseUrl` is the fixed constant below. -/
structure ClientState where
  apiKey : String
  cache : List (String × CacheEntry)
  cacheDuration : ℤ

/-- `this.baseUrl` (source line 5). -/
def baseUrl : String := "https://www.alphavantage.co/query"

/-- `new StockAPI(apiKey)`: empty cache, 5-minute default duration. -/
def StockAPI.new (apiKey : String) : ClientState :=
  { apiKey := apiKey, cache := [], cacheDuration := 5 * 60 * 1000 }

/-- Outcome of the transport layer for one `fetch` call: a non-ok
HTTP status (`!response.ok`) or a parsed JSON body. -/
inductive FetchResult where
  | notOk (status : ℤ)
  | ok (body : Json)

/-- The errors `makeRequest` throws: the HTTP-status error of source
line 30, or the API error of line 37 carrying the `Error Message`
field's value verbatim. -/
inductive ReqError where
  | http (status : ℤ)
  | api (msg : Json)

/-- Everything observable about one `makeRequest` call: the returned
or thrown value, the cache afterwards, the caller's `params` object
afterwards (it is mutated in place on the network path), the fetched
URL (`none` when no network access happened), and the arguments of
`console.warn` calls. -/
structure ReqResult where
  result : Except ReqError Json
  cache : List (String × CacheEntry)
  params : Params
  fetched : Option String
  warnings : List Json

/-- The network path of `makeRequest` (source lines 19-54), taken when
the cache check of line 15 fails: inject the credential into the
caller's `params` object (in-place mutation), build the URL, fetch,
check `Error Message`, warn on `Note`, store and return the body. -/
def makeRequestMiss (st : ClientState) (params : Params) (cacheKey : String)
    (now : ℤ) (resp : FetchResult) : ReqResult :=
  let params' := mapSet params "apikey" (PVal.s st.apiKey)
  let url := baseUrl ++ "?" ++ queryText params'
  match resp with
  | .notOk status =>
    { result := .error (.http status), cache := st.cache, params := params'
      fetched := some url, warnings := [] }
  | .ok data =>
    match data.getTruthy "Error Message" with
    | some v =>
      { result := .error (.api v), cache := st.cache, params := params'
        fetched := some url, warnings := [] }
    | none =>
      { result := .ok data
        cache := mapSet st.cache cacheKey { data := data, timestamp := now }
        params := params'
        fetched := some url
        warnings := match data.getTruthy "Note" with
          | some v => [v]
          | none => [] }

/-- `StockAPI.makeRequest` (source lines 10-55), with time and
transport outcome as explicit arguments. The `catch` block only logs
and rethrows, so it adds nothing observable beyond the error itself. -/
def makeRequest (st : ClientState) (params : Params) (now : ℤ)
    (resp : FetchResult) : ReqResult :=
  let cacheKey := serializeParams params
  match lookupKey st.cache cacheKey with
  | some cached =>
    if now - cached.timestamp < st.cacheDuration then
      { result := .ok cached.data, cache := st.cache, params := params
        fetched := none, warnings := [] }
    else makeRequestMiss st params cacheKey now resp
  | none => makeRequestMiss st params cacheKey now resp

/-- `StockAPI.clearCache` (source lines 284-286). -/
def clearCache (st : ClientState) : ClientState :=
  { st with cache := [] }

/-- `StockAPI.setCacheDuration` (source lines 289-291). -/
def setCacheDuration (st : ClientState) (duration : ℤ) : ClientState :=
  { st with cacheDuration := duration }

/-- Base-10 value of a digit run (most significant first). -/
def digitsVal (ds : List Char) : ℕ :=
  ds.foldl (fun acc c => 10 * acc + (c.toNat - 48)) 0

/-- JS `parseFloat` on a character list: optional sign, integer digits,
optional `.` and fraction digits, trailing garbage ignored; `none` is
`NaN` (no leading numeric prefix). Exponent notation and leading
whitespace are not modelled (the API's numeric fields carry neither). -/
def parseFloatChars (cs : List Char) : Option ℚ :=
  let sgn : ℚ := match cs with
    | '-' :: _ => -1
    | _ => 1
  let cs1 : List Char := match cs with
    | '-' :: rest => rest
    | '+' :: rest => rest
    | _ => cs
  let ip := cs1.takeWhile Char.isDigit
  let rest1 := cs1.dropWhile Char.isDigit
  let fp : List Char := match rest1 with
    | '.' :: rest2 => rest2.takeWhile Char.isDigit
    | _ => []
  if ip.isEmpty && fp.isEmpty then none
  else some (sgn * ((digitsVal ip : ℚ) + (digitsVal fp : ℚ) / 10 ^ fp.length))

/-- JS `parseInt(s)` (base 10, no `0x` prefix in the API's fields):
optional sign then integer digits; `none` is `NaN`. -/
def parseIntChars (cs : List Char) : Option ℤ :=
  let neg : Bool := match cs with
    | '-' :: _ => true
    | _ => false
  let cs1 : List Char := match cs with
    | '-' :: rest => rest
    | '+' :: rest => rest
    | _ => cs
  let ds := cs1.takeWhile Char.isDigit
  if ds.isEmpty then none
  else some ((if neg then -1 else 1) * (digitsVal ds : ℤ))

/-- `parseFloat` applied to a possibly-missing JSON field. Strings are
parsed, numbers pass through, everything else (including a missing
field, JS `undefined`) gives `NaN`, modelled as `none`. -/
def jsParseFloat : Option Json → Option ℚ
  | some (.str s) => parseFloatChars s.toList
  | some (.num q) => some q
  | _ => none

/-- `parseInt` applied to a possibly-missing JSON field. -/
def jsParseInt : Option Json → Option ℤ
  | some (.str s) => parseIntChars s.toList
  | some (.num q) => some q.floor
  | _ => none

/-- The record `parseGlobalQuote` builds (source lines 68-81). `open`
is a Lean keyword, hence `open_`. Raw (non-parsed) fields keep their
raw JSON value; numeric fields are `none` exactly when the source
would hold `NaN`. -/
structure Quote where
  symbol : Option Json
  open_ : Option ℚ
  high : Option ℚ
  low : Option ℚ
  price : Option ℚ
  volume : Option ℤ
  latestTradingDay : Option Json
  previousClose : Option ℚ
  change : Option ℚ
  changePercent : Option Json

/-- `StockAPI.parseGlobalQuote` (source lines 68-81). -/
def parseGlobalQuote (quoteData : Json) : Quote :=
  { symbol := quoteData.getField "01. symbol"
    open_ := jsParseFloat (quoteData.getField "02. open")
    high := jsParseFloat (quoteData.getField "03. high")
    low := jsParseFloat (quoteData.getField "04. low")
    price := jsParseFloat (quoteData.getField "05. price")
    volume := jsParseInt (quoteData.getField "06. volume")
    latestTradingDay := quoteData.getField "07. latest trading day"
    previousClose := jsParseFloat (quoteData.getField "08. previous close")
    change := jsParseFloat (quoteData.getField "09. change")
    changePercent := quoteData.getField "10. change percent" }

/-- `new Date(s)` on the API's ISO `YYYY-MM-DD` keys, reduced to the
sort key `y*10000 + m*100 + d`. For valid calendar dates this key is
ordered exactly as the epoch-millisecond values the source comparator
`new Date(a.date) - new Date(b.date)` subtracts, and only the ordering
is observable through the sort. A string that is not of that shape
gives `Invalid Date` (`NaN`) in JS, modelled as `none`. -/
def parseDate (s : String) : Option ℕ :=
  let cs := s.toList
  let y := cs.takeWhile Char.isDigit
  let r1 := cs.dropWhile Char.isDigit
  match r1 with
  | '-' :: r2 =>
    let m := r2.takeWhile Char.isDigit
    let r3 := r2.dropWhile Char.isDigit
    match r3 with
    | '-' :: r4 =>
      let d := r4.takeWhile Char.isDigit
      let r5 := r4.dropWhile Char.isDigit
      if y.isEmpty || m.isEmpty || d.isEmpty || !r5.isEmpty then none
      else if 1 ≤ digitsVal m ∧ digitsVal m ≤ 12 ∧
              1 ≤ digitsVal d ∧ digitsVal d ≤ 31 then
        some (digitsVal y * 10000 + digitsVal m * 100 + digitsVal d)
      else none
    | _ => none
  | _ => none

/-- Sort key actually fed to the comparator (`0` for invalid dates,
which the theorems below exclude by hypothesis, since the source's
comparator yields `NaN` there and the JS sort order is then
implementation-defined). -/
def dateKeyNum (s : String) : ℕ :=
  (parseDate s).getD 0

/-- `series.sort((a, b) => new Date(a.date) - new Date(b.date))`
(source lines 107 and 137). Both the JS sort and insertion sort are
stable, and a stable sort's output is determined by the comparator's
preorder, so insertion sort embeds the source's sort faithfully. -/
def sortByDateKey {α : Type} (f : α → String) (l : List α) : List α :=
  List.insertionSort (fun a b => dateKeyNum (f a) ≤ dateKeyNum (f b)) l

/-- One bar built by `parseTimeSeries` (source lines 98-105). -/
structure DailyBar where
  date : String
  open_ : Option ℚ
  high : Option ℚ
  low : Option ℚ
  close : Option ℚ
  volume : Option ℤ

/-- `StockAPI.parseTimeSeries` (source lines 95-108): one bar per
`Object.entries` pair (insertion order), then sort by date. The
function is only ever applied to the JSON object behind the
`Time Series (Daily)` key; other shapes are unreachable. -/
def parseTimeSeries (timeSeriesData : Json) : List DailyBar :=
  match timeSeriesData with
  | .obj fs =>
    sortByDateKey DailyBar.date (fs.map fun p =>
      ({ date := p.1
         open_ := jsParseFloat (p.2.getField "1. open")
         high := jsParseFloat (p.2.getField "2. high")
         low := jsParseFloat (p.2.getField "3. low")
         close := jsParseFloat (p.2.getField "4. close")
         volume := jsParseInt (p.2.getField "5. volume") } : DailyBar))
  | _ => []

/-- One bar built by `parseTimeSeriesAdjusted` (source lines 125-135). -/
structure DailyBarAdjusted where
  date : String
  open_ : Option ℚ
  high : Option ℚ
  low : Option ℚ
  close : Option ℚ
  adjustedClose : Option ℚ
  volume : Option ℤ
  dividendAmount : Option ℚ
  splitCoefficient : Option ℚ

/-- `StockAPI.parseTimeSeriesAdjusted` (source lines 122-138). -/
def parseTimeSeriesAdjusted (timeSeriesData : Json) : List DailyBarAdjusted :=
  match timeSeriesData with
  | .obj fs =>
    sortByDateKey DailyBarAdjusted.date (fs.map fun p =>
      ({ date := p.1
         open_ := jsParseFloat (p.2.getField "1. open")
         high := jsParseFloat (p.2.getField "2. high")
         low := jsParseFloat (p.2.getField "3. low")
         close := jsParseFloat (p.2.getField "4. close")
         adjustedClose := jsParseFloat (p.2.getField "5. adjusted close")
         volume := jsParseInt (p.2.getField "6. volume")
         dividendAmount := jsParseFloat (p.2.getField "7. dividend amount")
         splitCoefficient := jsParseFloat (p.2.getField "8. split coefficient")
       } : DailyBarAdjusted))
  | _ => []

/-- One match built by `parseSymbolSearch` (source lines 152-162). -/
structure SymbolMatch where
  symbol : Option Json
  name : Option Json
  type : Option Json
  region : Option Json
  marketOpen : Option Json
  marketClose : Option Json
  timezone : Option Json
  currency : Option Json
  matchScore : Option ℚ

/-- One element of the mapped array (source lines 152-162). -/
def parseSymbolMatch (m : Json) : SymbolMatch :=
  { symbol := m.getField "1. symbol"
    name := m.getField "2. name"
    type := m.getField "3. type"
    region := m.getField "4. region"
    marketOpen := m.getField "5. marketOpen"
    marketClose := m.getField "6. marketClose"
    timezone := m.getField "7. timezone"
    currency := m.getField "8. currency"
    matchScore := jsParseFloat (m.getField "9. matchScore") }

/-- `StockAPI.parseSymbolSearch` (source lines 151-163). `.map` on a
non-array would throw in JS; the source only reaches this behind the
`data['bestMatches'] ?` guard and the API's `bestMatches` is an array,
so only the array case is reachable. -/
def parseSymbolSearch (ms : Json) : List SymbolMatch :=
  match ms with
  | .arr xs => xs.map parseSymbolMatch
  | _ => []

/-- The record `parseExchangeRate` builds (source lines 228-240). -/
structure ExchangeRate where
  fromCurrency : Option Json
  fromName : Option Json
  toCurrency : Option Json
  toName : Option Json
  exchangeRate : Option ℚ
  lastRefreshed : Option Json
  timeZone : Option Json
  bidPrice : Option ℚ
  askPrice : Option ℚ

/-- `StockAPI.parseExchangeRate` (source lines 228-240). -/
def parseExchangeRate (rateData : Json) : ExchangeRate :=
  { fromCurrency := rateData.getField "1. From_Currency Code"
    fromName := rateData.getField "2. From_Currency Name"
    toCurrency := rateData.getField "3. To_Currency Code"
    toName := rateData.getField "4. To_Currency Name"
    exchangeRate := jsParseFloat (rateData.getField "5. Exchange Rate")
    lastRefreshed := rateData.getField "6. Last Refreshed"
    timeZone := rateData.getField "7. Time Zone"
    bidPrice := jsParseFloat (rateData.getField "8. Bid Price")
    askPrice := jsParseFloat (rateData.getField "9. Ask Price") }

/-- `Object.keys(data).length` (source line 173): field count for
objects, index count for arrays and strings; `null`/`undefined` would
throw, but `response.json()` bodies reaching this are JSON values. -/
def objectKeysLength : Json → ℕ
  | .obj fs => fs.length
  | .arr xs => xs.length
  | .str s => s.length
  | _ => 0

/-- `StockAPI.getGlobalQuote` (source lines 58-66). -/
def getGlobalQuote (st : ClientState) (symbol : String) (now : ℤ)
    (resp : FetchResult) : Except ReqError (Option Quote) :=
  let params : Params := [("function", .s "GLOBAL_QUOTE"), ("symbol", .s symbol)]
  match (makeRequest st params now resp).result with
  | .error e => .error e
  | .ok data =>
    .ok (match data.getTruthy "Global Quote" with
         | some q => some (parseGlobalQuote q)
         | none => none)

/-- `StockAPI.getTimeSeriesDaily` (source lines 84-93); `outputsize`
defaults to `"compact"` at JS call sites. -/
def getTimeSeriesDaily (st : ClientState) (symbol outputsize : String)
    (now : ℤ) (resp : FetchResult) : Except ReqError (Option (List DailyBar)) :=
  let params : Params := [("function", .s "TIME_SERIES_DAILY"),
    ("symbol", .s symbol), ("outputsize", .s outputsize)]
  match (makeRequest st params now resp).result with
  | .error e => .error e
  | .ok data =>
    .ok (match data.getTruthy "Time Series (Daily)" with
         | some ts => some (parseTimeSeries ts)
         | none => none)

/-- `StockAPI.getTimeSeriesDailyAdjusted` (source lines 111-120); note
the source reads the same `Time Series (Daily)` key here. -/
def getTimeSeriesDailyAdjusted (st : ClientState) (symbol outputsize : String)
    (now : ℤ) (resp : FetchResult) :
    Except ReqError (Option (List DailyBarAdjusted)) :=
  let params : Params := [("function", .s "TIME_SERIES_DAILY_ADJUSTED"),
    ("symbol", .s symbol), ("outputsize", .s outputsize)]
  match (makeRequest st params now resp).result with
  | .error e => .error e
  | .ok data =>
    .ok (match data.getTruthy "Time Series (Daily)" with
         | some ts => some (parseTimeSeriesAdjusted ts)
         | none => none)

/-- `StockAPI.symbolSearch` (source lines 141-149). -/
def symbolSearch (st : ClientState) (keywords : String) (now : ℤ)
    (resp : FetchResult) : Except ReqError (List SymbolMatch) :=
  let params : Params := [("function", .s "SYMBOL_SEARCH"), ("keywords", .s keywords)]
  match (makeRequest st params now resp).result with
  | .error e => .error e
  | .ok data =>
    .ok (match data.getTruthy "bestMatches" with
         | some ms => parseSymbolSearch ms
         | none => [])

/-- `StockAPI.getCompanyOverview` (source lines 166-174). -/
def getCompanyOverview (st : ClientState) (symbol : String) (now : ℤ)
    (resp : FetchResult) : Except ReqError (Option Json) :=
  let params : Params := [("function", .s "OVERVIEW"), ("symbol", .s symbol)]
  match (makeRequest st params now resp).result with
  | .error e => .error e
  | .ok data => .ok (if objectKeysLength data > 0 then some data else none)

/-- `StockAPI.getMarketStatus` (source lines 177-184). -/
def getMarketStatus (st : ClientState) (now : ℤ) (resp : FetchResult) :
    Except ReqError Json :=
  let params : Params := [("function", .s "MARKET_STATUS")]
  match (makeRequest st params now resp).result with
  | .error e => .error e
  | .ok data => .ok (data.getOr "markets" (.arr []))

/-- `StockAPI.getMarketMovers` (source lines 187-214): the `switch`
assigns the same discriminator in every branch; the selection happens
on the response. `listType` defaults to `"active"` at JS call sites. -/
def getMarketMovers (st : ClientState) (listType : String) (now : ℤ)
    (resp : FetchResult) : Except ReqError Json :=
  let functionName : String := match listType with
    | "gainers" => "TOP_GAINERS_LOSERS"
    | "losers" => "TOP_GAINERS_LOSERS"
    | _ => "TOP_GAINERS_LOSERS"
  let params : Params := [("function", .s functionName)]
  match (makeRequest st params now resp).result with
  | .error e => .error e
  | .ok data =>
    .ok (if listType = "gainers" then data.getOr "top_gainers" (.arr [])
         else if listType = "losers" then data.getOr "top_losers" (.arr [])
         else data.getOr "most_actively_traded" (.arr []))

/-- `StockAPI.getExchangeRate` (source lines 217-226). -/
def getExchangeRate (st : ClientState) (fromCurrency toCurrency : String)
    (now : ℤ) (resp : FetchResult) : Except ReqError (Option ExchangeRate) :=
  let params : Params := [("function", .s "CURRENCY_EXCHANGE_RATE"),
    ("from_currency", .s fromCurrency), ("to_currency", .s toCurrency)]
  match (makeRequest st params now resp).result with
  | .error e => .error e
  | .ok data =>
    .ok (match data.getTruthy "Realtime Currency Exchange Rate" with
         | some r => some (parseExchangeRate r)
         | none => none)

/-- `StockAPI.getSMA` (source lines 243-254); `time_period` is a JS
number. -/
def getSMA (st : ClientState) (symbol interval : String) (timePeriod : ℚ)
    (seriesType : String) (now : ℤ) (resp : FetchResult) :
    Except ReqError Json :=
  let params : Params := [("function", .s "SMA"), ("symbol", .s symbol),
    ("interval", .s interval), ("time_period", .n timePeriod),
    ("series_type", .s seriesType)]
  match (makeRequest st params now resp).result with
  | .error e => .error e
  | .ok data => .ok (data.getOr "Technical Analysis: SMA" (.obj []))

/-- `StockAPI.getRSI` (source lines 257-268). -/
def getRSI (st : ClientState) (symbol interval : String) (timePeriod : ℚ)
    (seriesType : String) (now : ℤ) (resp : FetchResult) :
    Except ReqError Json :=
  let params : Params := [("function", .s "RSI"), ("symbol", .s symbol),
    ("interval", .s interval), ("time_period", .n timePeriod),
    ("series_type", .s seriesType)]
  match (makeRequest st params now resp).result with
  | .error e => .error e
  | .ok data => .ok (data.getOr "Technical Analysis: RSI" (.obj []))

/-- `StockAPI.getMACD` (source lines 271-281); no `time_period`. -/
def getMACD (st : ClientState) (symbol interval seriesType : String)
    (now : ℤ) (resp : FetchResult) : Except ReqError Json :=
  let params : Params := [("function", .s "MACD"), ("symbol", .s symbol),
    ("interval", .s interval), ("series_type", .s seriesType)]
  match (makeRequest st params now resp).result with
  | .error e => .error e
  | .ok data => .ok (data.getOr "Technical Analysis: MACD" (.obj []))

/-! ## Helper lemmas -/

theorem lookupKey_mapSet_self {α : Type} (m : List (String × α)) (k : String)
    (v : α) : lookupKey (mapSet m k v) k = some v := by
  induction m with
  | nil => simp [mapSet, lookupKey]
  | cons x rest ih =>
    by_cases h : x.1 = k
    · simp [mapSet, h, lookupKey]
    · simp [mapSet, h, lookupKey, ih]

theorem mem_keys_mapSet {α : Type} (m : List (String × α)) (k k' : String)
    (v : α) (h : k' ∈ (mapSet m k v).map Prod.fst) :
    k' ∈ m.map Prod.fst ∨ k' = k := by
  induction m with
  | nil =>
    simp [mapSet] at h
    exact Or.inr h
  | cons x rest ih =>
    by_cases hx : x.1 = k
    · rw [show mapSet (x :: rest) k v = (k, v) :: rest by simp [mapSet, hx]] at h
      rw [List.map_cons, List.mem_cons] at h
      rcases h with h | h
      · exact Or.inr h
      · exact Or.inl (by rw [List.map_cons, List.mem_cons]; exact Or.inr h)
    · rw [show mapSet (x :: rest) k v = x :: mapSet rest k v by
        simp [mapSet, hx]] at h
      rw [List.map_cons, List.mem_cons] at h
      rcases h with h | h
      · exact Or.inl (by rw [List.map_cons, List.mem_cons]; exact Or.inl h)
      · rcases ih h with h' | h'
        · exact Or.inl (by rw [List.map_cons, List.mem_cons]; exact Or.inr h')
        · exact Or.inr h'

theorem mapSet_append_of_none {α : Type} (m : List (String × α)) (k : String)
    (v : α) (h : lookupKey m k = none) : mapSet m k v = m ++ [(k, v)] := by
  induction m with
  | nil => simp [mapSet]
  | cons x rest ih =>
    by_cases hx : x.1 = k
    · simp [lookupKey, hx] at h
    · simp [lookupKey, hx] at h
      simp [mapSet, hx, ih h]

theorem entriesText_length_lt (ps : List (String × PVal)) (e : String × PVal) :
    (entriesText ps).length < (entriesText (ps ++ [e])).length := by
  induction ps with
  | nil =>
    have h1 : ("\"" : String).length = 1 := rfl
    simp [entriesText, entryText, String.length_append]
    omega
  | cons x rest ih =>
    cases rest with
    | nil =>
      have h1 : ("," : String).length = 1 := rfl
      simp [entriesText, String.length_append]
      omega
    | cons y rest2 =>
      simp only [entriesText, List.cons_append, List.append_eq,
        String.length_append] at ih ⊢
      omega

theorem serializeParams_append_ne (ps : List (String × PVal))
    (e : String × PVal) : serializeParams (ps ++ [e]) ≠ serializeParams ps := by
  intro h
  have hl := congrArg String.length h
  have h2 := entriesText_length_lt ps e
  simp [serializeParams, String.length_append] at hl
  omega

/-- The cache check of source line 15 fails for this call: any entry
under the key is expired. (In particular it holds when there is no
entry at all.) -/
def cacheMiss (st : ClientState) (params : Params) (now : ℤ) : Prop :=
  ∀ e, lookupKey st.cache (serializeParams params) = some e →
    st.cacheDuration ≤ now - e.timestamp

theorem makeRequest_of_miss (st : ClientState) (params : Params) (now : ℤ)
    (resp : FetchResult) (h : cacheMiss st params now) :
    makeRequest st params now resp =
      makeRequestMiss st params (serializeParams params) now resp := by
  cases hl : lookupKey st.cache (serializeParams params) with
  | some e =>
    have hv : ¬(now - e.timestamp < st.cacheDuration) := not_lt.mpr (h e hl)
    simp [makeRequest, hl, hv]
  | none => simp [makeRequest, hl]

theorem makeRequest_empty_cache (st : ClientState) (params : Params) (now : ℤ)
    (resp : FetchResult) (h : st.cache = []) :
    makeRequest st params now resp =
      makeRequestMiss st params (serializeParams params) now resp := by
  have hl : lookupKey st.cache (serializeParams params) = none := by
    rw [h]; rfl
  simp [makeRequest, hl]

theorem makeRequestMiss_result_ok (st : ClientState) (params : Params)
    (key : String) (now : ℤ) (body : Json)
    (herr : body.getTruthy "Error Message" = none) :
    (makeRequestMiss st params key now (.ok body)).result = .ok body := by
  simp [makeRequestMiss, herr]

theorem makeRequestMiss_fetched (st : ClientState) (params : Params)
    (key : String) (now : ℤ) (resp : FetchResult) :
    (makeRequestMiss st params key now resp).fetched =
      some (baseUrl ++ "?" ++
        queryText (mapSet params "apikey" (PVal.s st.apiKey))) := by
  cases resp with
  | notOk status => rfl
  | ok body =>
    cases herr : body.getTruthy "Error Message" with
    | some v => simp [makeRequestMiss, herr]
    | none => simp [makeRequestMiss, herr]

theorem makeRequestMiss_params (st : ClientState) (params : Params)
    (key : String) (now : ℤ) (resp : FetchResult) :
    (makeRequestMiss st params key now resp).params =
      mapSet params "apikey" (PVal.s st.apiKey) := by
  cases resp with
  | notOk status => rfl
  | ok body =>
    cases herr : body.getTruthy "Error Message" with
    | some v => simp [makeRequestMiss, herr]
    | none => simp [makeRequestMiss, herr]

theorem makeRequestMiss_cache_sub (st : ClientState) (params : Params)
    (key : String) (now : ℤ) (resp : FetchResult) (k : String)
    (hk : k ∈ ((makeRequestMiss st params key now resp).cache).map Prod.fst) :
    k ∈ (st.cache).map Prod.fst ∨ k = key := by
  cases resp with
  | notOk status => exact Or.inl (by simpa [makeRequestMiss] using hk)
  | ok body =>
    cases herr : body.getTruthy "Error Message" with
    | some v => exact Or.inl (by simpa [makeRequestMiss, herr] using hk)
    | none =>
      exact mem_keys_mapSet st.cache key k _
        (by simpa [makeRequestMiss, herr] using hk)

theorem makeRequestMiss_ok_cache (st : ClientState) (params : Params)
    (key : String) (now : ℤ) (resp : FetchResult) (d : Json)
    (hok : (makeRequestMiss st params key now resp).result = .ok d) :
    (makeRequestMiss st params key now resp).cache =
      mapSet st.cache key { data := d, timestamp := now } := by
  cases resp with
  | notOk status => simp [makeRequestMiss] at hok
  | ok body =>
    cases herr : body.getTruthy "Error Message" with
    | some v => simp [makeRequestMiss, herr] at hok
    | none =>
      simp [makeRequestMiss, herr] at hok ⊢
      rw [hok]

/-! ## Theorems for the claims -/

/-- C1: if a valid (non-expired) cache entry exists for the
serialization of `params`, `makeRequest` returns that entry's payload
with no network access (and leaves the cache untouched); and after a
successful call, a second call with the same serialization at the same
instant issues no network call and returns the same body (at most one
network call across the two). The second part needs a positive cache
duration, which claim C3 records as the condition for any entry to be
usable. -/
theorem claim_C1 :
    (∀ (st : ClientState) (params : Params) (now : ℤ) (resp : FetchResult)
       (e : CacheEntry),
       lookupKey st.cache (serializeParams params) = some e →
       now - e.timestamp < st.cacheDuration →
       (makeRequest st params now resp).result = .ok e.data ∧
       (makeRequest st params now resp).fetched = none ∧
       (makeRequest st params now resp).cache = st.cache) ∧
    (∀ (st : ClientState) (params : Params) (now : ℤ)
       (resp resp2 : FetchResult) (d : Json),
       0 < st.cacheDuration →
       (makeRequest st params now resp).result = .ok d →
       (makeRequest { st with cache := (makeRequest st params now resp).cache }
          params now resp2).result = .ok d ∧
       (makeRequest { st with cache := (makeRequest st params now resp).cache }
          params now resp2).fetched = none) := by
  constructor
  · intro st params now resp e hl hv
    simp [makeRequest, hl, hv]
  · intro st params now resp resp2 d hdur hok
    cases hl : lookupKey st.cache (serializeParams params) with
    | some e =>
      by_cases hv : now - e.timestamp < st.cacheDuration
      · have h1 : makeRequest st params now resp =
            { result := .ok e.data, cache := st.cache, params := params
              fetched := none, warnings := [] } := by
          simp [makeRequest, hl, hv]
        rw [h1] at hok
        simp at hok
        rw [h1]
        constructor
        · show (makeRequest st params now resp2).result = .ok d
          simp [makeRequest, hl, hv, hok]
        · show (makeRequest st params now resp2).fetched = none
          simp [makeRequest, hl, hv]
      · have h1 : makeRequest st params now resp =
            makeRequestMiss st params (serializeParams params) now resp := by
          simp [makeRequest, hl, hv]
        rw [h1] at hok
        have hc := makeRequestMiss_ok_cache st params (serializeParams params)
          now resp d hok
        rw [h1, hc]
        constructor
        · simp [makeRequest, lookupKey_mapSet_self, sub_self, hdur]
        · simp [makeRequest, lookupKey_mapSet_self, sub_self, hdur]
    | none =>
      have h1 : makeRequest st params now resp =
          makeRequestMiss st params (serializeParams params) now resp := by
        simp [makeRequest, hl]
      rw [h1] at hok
      have hc := makeRequestMiss_ok_cache st params (serializeParams params)
        now resp d hok
      rw [h1, hc]
      constructor
      · simp [makeRequest, lookupKey_mapSet_self, sub_self, hdur]
      · simp [makeRequest, lookupKey_mapSet_self, sub_self, hdur]

/-- Witness for C1 at a concrete input: a successful first call with
an empty cache, then a second call at the same instant that is served
from the cache. -/
theorem claim_C1_witness :
    (makeRequest
       { apiKey := "KEY"
         cache := (makeRequest { apiKey := "KEY", cache := [], cacheDuration := 300000 }
           [("function", PVal.s "GLOBAL_QUOTE")] 0 (.ok (Json.obj []))).cache
         cacheDuration := 300000 }
       [("function", PVal.s "GLOBAL_QUOTE")] 0 (.ok Json.null)).result =
      .ok (Json.obj []) ∧
    (makeRequest
       { apiKey := "KEY"
         cache := (makeRequest { apiKey := "KEY", cache := [], cacheDuration := 300000 }
           [("function", PVal.s "GLOBAL_QUOTE")] 0 (.ok (Json.obj []))).cache
         cacheDuration := 300000 }
       [("function", PVal.s "GLOBAL_QUOTE")] 0 (.ok Json.null)).fetched = none :=
  claim_C1.2 { apiKey := "KEY", cache := [], cacheDuration := 300000 }
    [("function", PVal.s "GLOBAL_QUOTE")] 0 (.ok (Json.obj []))
    (.ok Json.null) (Json.obj []) (by decide) (by rfl)

/-- A client in its initial state (fresh cache, default duration),
used by the concrete witnesses below. -/
def demoState : ClientState :=
  { apiKey := "KEY", cache := [], cacheDuration := 300000 }

/-- A concrete params object as `getGlobalQuote` builds it. -/
def demoParams : Params :=
  [("function", PVal.s "GLOBAL_QUOTE"), ("symbol", PVal.s "IBM")]

/-- C2, counterexample to the claim as stated: a response whose
`Error Message` field holds the empty string. JS truthiness makes the
check on source line 36 fail, so `makeRequest` does NOT fail — it
returns the body and stores a cache entry — while the claim demands a
failure with message `""` and an unchanged cache. -/
theorem claim_C2_counterexample :
    (makeRequest demoState demoParams 0
       (.ok (Json.obj [("Error Message", Json.str "")]))).result =
      .ok (Json.obj [("Error Message", Json.str "")]) ∧
    (makeRequest demoState demoParams 0
       (.ok (Json.obj [("Error Message", Json.str "")]))).result ≠
      .error (.api (Json.str "")) ∧
    (makeRequest demoState demoParams 0
       (.ok (Json.obj [("Error Message", Json.str "")]))).cache =
      [(serializeParams demoParams,
        { data := Json.obj [("Error Message", Json.str "")], timestamp := 0 })] ∧
    (makeRequest demoState demoParams 0
       (.ok (Json.obj [("Error Message", Json.str "")]))).cache ≠
      demoState.cache :=
  ⟨rfl, fun h => Except.noConfusion h, rfl, fun h => List.noConfusion h⟩

/-- C2 (amended): for every response body whose `Error Message` field
holds a truthy value X (for instance any non-empty string — JS
truthiness exempts falsy values such as `""`), a non-cache-served
`request` fails with an error carrying X verbatim and the cache is
left unchanged. -/
theorem claim_C2 :
    ∀ (st : ClientState) (params : Params) (now : ℤ) (body v : Json),
      cacheMiss st params now →
      body.getField "Error Message" = some v →
      v.truthy = true →
      (makeRequest st params now (.ok body)).result = .error (.api v) ∧
      (makeRequest st params now (.ok body)).cache = st.cache := by
  intro st params now body v hmiss hf ht
  rw [makeRequest_of_miss st params now _ hmiss]
  simp [makeRequestMiss, Json.getTruthy, hf, ht]

/-- Witness for C2 at a concrete input: a fresh client and a response
carrying `Error Message: "Invalid API call"`. -/
theorem claim_C2_witness :
    (makeRequest demoState demoParams 0
       (.ok (Json.obj [("Error Message", Json.str "Invalid API call")]))).result =
      .error (.api (Json.str "Invalid API call")) ∧
    (makeRequest demoState demoParams 0
       (.ok (Json.obj [("Error Message", Json.str "Invalid API call")]))).cache =
      demoState.cache :=
  claim_C2 demoState demoParams 0
    (Json.obj [("Error Message", Json.str "Invalid API call")])
    (Json.str "Invalid API call")
    (by intro e he; simp [demoState, lookupKey] at he) rfl rfl

/-- C3: (1) `makeRequest` is served without network access exactly
when a cache entry exists for the key and `now - storedAt` is strictly
below `cacheDuration`; (2) after `setCacheDuration 0` every request
whose cached entries were stored at or before `now` issues a network
call; (3) once `now - storedAt` has reached `cacheDuration`, the next
request for the same key issues a network call. -/
theorem claim_C3 :
    (∀ (st : ClientState) (params : Params) (now : ℤ) (resp : FetchResult),
       (makeRequest st params now resp).fetched = none ↔
         ∃ e, lookupKey st.cache (serializeParams params) = some e ∧
           now - e.timestamp < st.cacheDuration) ∧
    (∀ (st : ClientState) (params : Params) (now : ℤ) (resp : FetchResult),
       (∀ e, lookupKey st.cache (serializeParams params) = some e →
          e.timestamp ≤ now) →
       (makeRequest (setCacheDuration st 0) params now resp).fetched ≠ none) ∧
    (∀ (st : ClientState) (params : Params) (now : ℤ) (resp : FetchResult)
       (e : CacheEntry),
       lookupKey st.cache (serializeParams params) = some e →
       st.cacheDuration ≤ now - e.timestamp →
       (makeRequest st params now resp).fetched ≠ none) := by
  refine ⟨?_, ?_, ?_⟩
  · intro st params now resp
    cases hl : lookupKey st.cache (serializeParams params) with
    | some e =>
      by_cases hv : now - e.timestamp < st.cacheDuration
      · simp [makeRequest, hl, hv]
      · simp [makeRequest, hl, hv, makeRequestMiss_fetched]
    | none => simp [makeRequest, hl, makeRequestMiss_fetched]
  · intro st params now resp h
    cases hl : lookupKey (setCacheDuration st 0).cache
        (serializeParams params) with
    | some e =>
      have hts : e.timestamp ≤ now := h e (by simpa [setCacheDuration] using hl)
      have hv : ¬(now - e.timestamp < (setCacheDuration st 0).cacheDuration) := by
        simp [setCacheDuration]; omega
      simp [makeRequest, hl, hv, makeRequestMiss_fetched]
    | none => simp [makeRequest, hl, makeRequestMiss_fetched]
  · intro st params now resp e hl hexp
    have hv : ¬(now - e.timestamp < st.cacheDuration) := not_lt.mpr hexp
    simp [makeRequest, hl, hv, makeRequestMiss_fetched]

/-- Witness for C3 at a concrete input: with the duration set to `0`,
a fresh client's request at time 5 does go to the network. -/
theorem claim_C3_witness :
    (makeRequest (setCacheDuration demoState 0) demoParams 5
       (.ok Json.null)).fetched ≠ none :=
  claim_C3.2.1 demoState demoParams 5 (.ok Json.null)
    (by intro e he; simp [demoState, lookupKey] at he)

/-- C7, counterexample to the claim as stated: a response whose `Note`
field holds the empty string (falsy). The request still succeeds and
the body is cached and returned, but the note is NOT surfaced as a
warning — `console.warn` is never called — while the claim says every
response containing a `Note` field has the note surfaced as a logged
warning. -/
theorem claim_C7_counterexample :
    (makeRequest demoState demoParams 0
       (.ok (Json.obj [("Note", Json.str "")]))).result =
      .ok (Json.obj [("Note", Json.str "")]) ∧
    (makeRequest demoState demoParams 0
       (.ok (Json.obj [("Note", Json.str "")]))).warnings = [] ∧
    (makeRequest demoState demoParams 0
       (.ok (Json.obj [("Note", Json.str "")]))).warnings ≠
      [Json.str ""] :=
  ⟨rfl, rfl, fun h => List.noConfusion h⟩

/-- C7 (amended): for every response containing a truthy `Note` value
(for instance any non-empty string — JS truthiness exempts `""`) and
no `Error Message` field, a non-cache-served `request` does not fail:
the note is surfaced as exactly one logged warning, and the body is
cached under the key and returned to the caller. -/
theorem claim_C7 :
    ∀ (st : ClientState) (params : Params) (now : ℤ) (body v : Json),
      cacheMiss st params now →
      body.getTruthy "Note" = some v →
      body.getField "Error Message" = none →
      (makeRequest st params now (.ok body)).result = .ok body ∧
      (makeRequest st params now (.ok body)).warnings = [v] ∧
      (makeRequest st params now (.ok body)).cache =
        mapSet st.cache (serializeParams params)
          { data := body, timestamp := now } := by
  intro st params now body v hmiss hnote herr
  rw [makeRequest_of_miss st params now _ hmiss]
  have herr' : body.getTruthy "Error Message" = none := by
    simp [Json.getTruthy, herr]
  simp [makeRequestMiss, herr', hnote]

/-- Witness for C7 at a concrete input: a fresh client and a response
carrying a non-empty rate-limit note. -/
theorem claim_C7_witness :
    (makeRequest demoState demoParams 0
       (.ok (Json.obj [("Note", Json.str "rate limit")]))).result =
      .ok (Json.obj [("Note", Json.str "rate limit")]) ∧
    (makeRequest demoState demoParams 0
       (.ok (Json.obj [("Note", Json.str "rate limit")]))).warnings =
      [Json.str "rate limit"] ∧
    (makeRequest demoState demoParams 0
       (.ok (Json.obj [("Note", Json.str "rate limit")]))).cache =
      mapSet demoState.cache (serializeParams demoParams)
        { data := Json.obj [("Note", Json.str "rate limit")], timestamp := 0 } :=
  claim_C7 demoState demoParams 0
    (Json.obj [("Note", Json.str "rate limit")]) (Json.str "rate limit")
    (by intro e he; simp [demoState, lookupKey] at he) rfl rfl

theorem sortByDateKey_sorted {α : Type} (f : α → String) (l : List α) :
    (sortByDateKey f l).Pairwise
      (fun a b => dateKeyNum (f a) ≤ dateKeyNum (f b)) := by
  haveI : IsTotal α (fun a b => dateKeyNum (f a) ≤ dateKeyNum (f b)) :=
    ⟨fun a b => Nat.le_total _ _⟩
  haveI : IsTrans α (fun a b => dateKeyNum (f a) ≤ dateKeyNum (f b)) :=
    ⟨fun _ _ _ hab hbc => Nat.le_trans hab hbc⟩
  exact List.sorted_insertionSort _ l

theorem sortByDateKey_perm {α : Type} (f : α → String) (l : List α) :
    (sortByDateKey f l).Perm l :=
  List.perm_insertionSort _ l

theorem sortByDateKey_strict {α : Type} (f : α → String) (l : List α)
    (h : l.Pairwise fun a b => dateKeyNum (f a) ≠ dateKeyNum (f b)) :
    (sortByDateKey f l).Pairwise
      (fun a b => dateKeyNum (f a) < dateKeyNum (f b)) := by
  have hne : (sortByDateKey f l).Pairwise
      (fun a b => dateKeyNum (f a) ≠ dateKeyNum (f b)) :=
    ((sortByDateKey_perm f l).symm.pairwise_iff fun hab => Ne.symm hab).mp h
  exact ((sortByDateKey_sorted f l).and hne).imp
    fun hab => lt_of_le_of_ne hab.1 hab.2

/-- C4: on a time-series object whose keys are calendar dates, the
bars returned by `parseTimeSeries` and `parseTimeSeriesAdjusted` are
sorted ascending by date, and strictly ascending when the dates are
pairwise distinct (as an object's keys are). -/
theorem claim_C4 :
    ∀ (fs : List (String × Json)),
      (∀ p ∈ fs, (parseDate p.1).isSome = true) →
      fs.Pairwise (fun p q => dateKeyNum p.1 ≠ dateKeyNum q.1) →
      ((parseTimeSeries (.obj fs)).Pairwise
        fun a b => dateKeyNum a.date ≤ dateKeyNum b.date) ∧
      ((parseTimeSeriesAdjusted (.obj fs)).Pairwise
        fun a b => dateKeyNum a.date ≤ dateKeyNum b.date) ∧
      ((parseTimeSeries (.obj fs)).Pairwise
        fun a b => dateKeyNum a.date < dateKeyNum b.date) ∧
      ((parseTimeSeriesAdjusted (.obj fs)).Pairwise
        fun a b => dateKeyNum a.date < dateKeyNum b.date) := by
  intro fs _hvalid hne
  refine ⟨?_, ?_, ?_, ?_⟩
  · exact sortByDateKey_sorted DailyBar.date _
  · exact sortByDateKey_sorted DailyBarAdjusted.date _
  · exact sortByDateKey_strict DailyBar.date _ (List.pairwise_map.mpr hne)
  · exact sortByDateKey_strict DailyBarAdjusted.date _ (List.pairwise_map.mpr hne)

/-- Witness for C4 at a concrete input: an unordered object of three
distinct dates. -/
theorem claim_C4_witness :
    ((parseTimeSeries (.obj [("2024-03-01", Json.obj []),
        ("2023-12-31", Json.obj []), ("2024-01-15", Json.obj [])])).Pairwise
      fun a b => dateKeyNum a.date ≤ dateKeyNum b.date) ∧
    ((parseTimeSeriesAdjusted (.obj [("2024-03-01", Json.obj []),
        ("2023-12-31", Json.obj []), ("2024-01-15", Json.obj [])])).Pairwise
      fun a b => dateKeyNum a.date ≤ dateKeyNum b.date) ∧
    ((parseTimeSeries (.obj [("2024-03-01", Json.obj []),
        ("2023-12-31", Json.obj []), ("2024-01-15", Json.obj [])])).Pairwise
      fun a b => dateKeyNum a.date < dateKeyNum b.date) ∧
    ((parseTimeSeriesAdjusted (.obj [("2024-03-01", Json.obj []),
        ("2023-12-31", Json.obj []), ("2024-01-15", Json.obj [])])).Pairwise
      fun a b => dateKeyNum a.date < dateKeyNum b.date) :=
  claim_C4 [("2024-03-01", Json.obj []), ("2023-12-31", Json.obj []),
    ("2024-01-15", Json.obj [])] (by decide) (by decide)

/-- The operation-specific top-level response keys the client
recognizes (spec section 6). -/
def recognizedKeys : List String :=
  ["Global Quote", "Time Series (Daily)", "bestMatches", "markets",
   "top_gainers", "top_losers", "most_actively_traded",
   "Realtime Currency Exchange Rate", "Technical Analysis: SMA",
   "Technical Analysis: RSI", "Technical Analysis: MACD"]

/-- C5: on a response object with none of the recognized top-level
keys and no `Error Message` field, every derived operation succeeds
with its documented absent value: `null` for `getGlobalQuote`, the two
time-series operations and `getExchangeRate`, `null` on the empty
mapping for `getCompanyOverview`, the empty sequence for
`symbolSearch`, `getMarketStatus` and `getMarketMovers`, and the empty
mapping for `getSMA`/`getRSI`/`getMACD`. The client starts from a
fresh cache so the response is what gets processed. -/
theorem claim_C5 :
    ∀ (ak : String) (cd now : ℤ) (sym kw fc tc itv stp : String) (tp : ℚ)
      (fs : List (String × Json)),
      lookupKey fs "Error Message" = none →
      (∀ k ∈ recognizedKeys, lookupKey fs k = none) →
      getGlobalQuote ⟨ak, [], cd⟩ sym now (.ok (.obj fs)) = .ok none ∧
      getTimeSeriesDaily ⟨ak, [], cd⟩ sym "compact" now (.ok (.obj fs)) =
        .ok none ∧
      getTimeSeriesDailyAdjusted ⟨ak, [], cd⟩ sym "compact" now
        (.ok (.obj fs)) = .ok none ∧
      symbolSearch ⟨ak, [], cd⟩ kw now (.ok (.obj fs)) = .ok [] ∧
      getCompanyOverview ⟨ak, [], cd⟩ sym now (.ok (.obj [])) = .ok none ∧
      getMarketStatus ⟨ak, [], cd⟩ now (.ok (.obj fs)) = .ok (.arr []) ∧
      getMarketMovers ⟨ak, [], cd⟩ "gainers" now (.ok (.obj fs)) =
        .ok (.arr []) ∧
      getMarketMovers ⟨ak, [], cd⟩ "losers" now (.ok (.obj fs)) =
        .ok (.arr []) ∧
      getMarketMovers ⟨ak, [], cd⟩ "active" now (.ok (.obj fs)) =
        .ok (.arr []) ∧
      getExchangeRate ⟨ak, [], cd⟩ fc tc now (.ok (.obj fs)) = .ok none ∧
      getSMA ⟨ak, [], cd⟩ sym itv tp stp now (.ok (.obj fs)) =
        .ok (.obj []) ∧
      getRSI ⟨ak, [], cd⟩ sym itv tp stp now (.ok (.obj fs)) =
        .ok (.obj []) ∧
      getMACD ⟨ak, [], cd⟩ sym itv stp now (.ok (.obj fs)) =
        .ok (.obj []) := by
  intro ak cd now sym kw fc tc itv stp tp fs h1 h2
  have herr : (Json.obj fs).getTruthy "Error Message" = none := by
    simp [Json.getTruthy, Json.getField, h1]
  have herr0 : (Json.obj ([] : List (String × Json))).getTruthy
      "Error Message" = none := rfl
  have hkey : ∀ k ∈ recognizedKeys, (Json.obj fs).getTruthy k = none := by
    intro k hk
    simp [Json.getTruthy, Json.getField, h2 k hk]
  have hG := hkey "Global Quote" (by simp [recognizedKeys])
  have hT := hkey "Time Series (Daily)" (by simp [recognizedKeys])
  have hB := hkey "bestMatches" (by simp [recognizedKeys])
  have hM := hkey "markets" (by simp [recognizedKeys])
  have hTG := hkey "top_gainers" (by simp [recognizedKeys])
  have hTL := hkey "top_losers" (by simp [recognizedKeys])
  have hMA := hkey "most_actively_traded" (by simp [recognizedKeys])
  have hR := hkey "Realtime Currency Exchange Rate" (by simp [recognizedKeys])
  have hS := hkey "Technical Analysis: SMA" (by simp [recognizedKeys])
  have hRS := hkey "Technical Analysis: RSI" (by simp [recognizedKeys])
  have hMC := hkey "Technical Analysis: MACD" (by simp [recognizedKeys])
  refine ⟨?_, ?_, ?_, ?_, ?_, ?_, ?_, ?_, ?_, ?_, ?_, ?_, ?_⟩
  · simp [getGlobalQuote, makeRequest_empty_cache,
      makeRequestMiss_result_ok _ _ _ _ _ herr, hG]
  · simp [getTimeSeriesDaily, makeRequest_empty_cache,
      makeRequestMiss_result_ok _ _ _ _ _ herr, hT]
  · simp [getTimeSeriesDailyAdjusted, makeRequest_empty_cache,
      makeRequestMiss_result_ok _ _ _ _ _ herr, hT]
  · simp [symbolSearch, makeRequest_empty_cache,
      makeRequestMiss_result_ok _ _ _ _ _ herr, hB]
  · simp [getCompanyOverview, makeRequest_empty_cache,
      makeRequestMiss_result_ok _ _ _ _ _ herr0, objectKeysLength]
  · simp [getMarketStatus, makeRequest_empty_cache,
      makeRequestMiss_result_ok _ _ _ _ _ herr, Json.getOr, hM]
  · simp [getMarketMovers, makeRequest_empty_cache,
      makeRequestMiss_result_ok _ _ _ _ _ herr, Json.getOr, hTG]
  · simp [getMarketMovers, makeRequest_empty_cache,
      makeRequestMiss_result_ok _ _ _ _ _ herr, Json.getOr, hTL]
  · simp [getMarketMovers, makeRequest_empty_cache,
      makeRequestMiss_result_ok _ _ _ _ _ herr, Json.getOr, hMA]
  · simp [getExchangeRate, makeRequest_empty_cache,
      makeRequestMiss_result_ok _ _ _ _ _ herr, hR]
  · simp [getSMA, makeRequest_empty_cache,
      makeRequestMiss_result_ok _ _ _ _ _ herr, Json.getOr, hS]
  · simp [getRSI, makeRequest_empty_cache,
      makeRequestMiss_result_ok _ _ _ _ _ herr, Json.getOr, hRS]
  · simp [getMACD, makeRequest_empty_cache,
      makeRequestMiss_result_ok _ _ _ _ _ herr, Json.getOr, hMC]

/-- Witness for C5 at a concrete input: the empty response object. -/
theorem claim_C5_witness :
    getGlobalQuote ⟨"KEY", [], 300000⟩ "IBM" 0 (.ok (.obj [])) = .ok none ∧
    getTimeSeriesDaily ⟨"KEY", [], 300000⟩ "IBM" "compact" 0
      (.ok (.obj [])) = .ok none ∧
    getTimeSeriesDailyAdjusted ⟨"KEY", [], 300000⟩ "IBM" "compact" 0
      (.ok (.obj [])) = .ok none ∧
    symbolSearch ⟨"KEY", [], 300000⟩ "IBM" 0 (.ok (.obj [])) = .ok [] ∧
    getCompanyOverview ⟨"KEY", [], 300000⟩ "IBM" 0 (.ok (.obj [])) =
      .ok none ∧
    getMarketStatus ⟨"KEY", [], 300000⟩ 0 (.ok (.obj [])) = .ok (.arr []) ∧
    getMarketMovers ⟨"KEY", [], 300000⟩ "gainers" 0 (.ok (.obj [])) =
      .ok (.arr []) ∧
    getMarketMovers ⟨"KEY", [], 300000⟩ "losers" 0 (.ok (.obj [])) =
      .ok (.arr []) ∧
    getMarketMovers ⟨"KEY", [], 300000⟩ "active" 0 (.ok (.obj [])) =
      .ok (.arr []) ∧
    getExchangeRate ⟨"KEY", [], 300000⟩ "USD" "EUR" 0 (.ok (.obj [])) =
      .ok none ∧
    getSMA ⟨"KEY", [], 300000⟩ "IBM" "daily" 20 "close" 0 (.ok (.obj [])) =
      .ok (.obj []) ∧
    getRSI ⟨"KEY", [], 300000⟩ "IBM" "daily" 14 "close" 0 (.ok (.obj [])) =
      .ok (.obj []) ∧
    getMACD ⟨"KEY", [], 300000⟩ "IBM" "daily" "close" 0 (.ok (.obj [])) =
      .ok (.obj []) :=
  claim_C5 "KEY" 300000 0 "IBM" "IBM" "USD" "EUR" "daily" "close" 20 []
    rfl (by intro k _; rfl)

/-- A market-movers response carrying all three lists. -/
def demoMoversBody : Json :=
  .obj [("top_gainers", .arr [.str "G1"]),
        ("top_losers", .arr [.str "L1"]),
        ("most_actively_traded", .arr [.str "A1"])]

/-- C6: `getMarketMovers` returns the sequence selected by `listType`
(`gainers` → `top_gainers`, `losers` → `top_losers`, `active` →
`most_actively_traded`); on a concrete response carrying all three
lists, `getMarketMovers "losers"` returns only the `top_losers`
sequence. -/
theorem claim_C6 :
    (∀ (ak : String) (cd now : ℤ) (fs : List (String × Json)),
       lookupKey fs "Error Message" = none →
       getMarketMovers ⟨ak, [], cd⟩ "gainers" now (.ok (.obj fs)) =
         .ok ((Json.obj fs).getOr "top_gainers" (.arr [])) ∧
       getMarketMovers ⟨ak, [], cd⟩ "losers" now (.ok (.obj fs)) =
         .ok ((Json.obj fs).getOr "top_losers" (.arr [])) ∧
       getMarketMovers ⟨ak, [], cd⟩ "active" now (.ok (.obj fs)) =
         .ok ((Json.obj fs).getOr "most_actively_traded" (.arr []))) ∧
    getMarketMovers ⟨"KEY", [], 300000⟩ "losers" 0 (.ok demoMoversBody) =
      .ok (Json.arr [Json.str "L1"]) := by
  constructor
  · intro ak cd now fs h1
    have herr : (Json.obj fs).getTruthy "Error Message" = none := by
      simp [Json.getTruthy, Json.getField, h1]
    refine ⟨?_, ?_, ?_⟩ <;>
      simp [getMarketMovers, makeRequest_empty_cache,
        makeRequestMiss_result_ok _ _ _ _ _ herr]
  · rfl

/-- Witness for C6 at a concrete input: the general part applied to
the all-three-lists response body. -/
theorem claim_C6_witness :
    getMarketMovers ⟨"KEY", [], 300000⟩ "gainers" 0 (.ok demoMoversBody) =
      .ok (demoMoversBody.getOr "top_gainers" (.arr [])) ∧
    getMarketMovers ⟨"KEY", [], 300000⟩ "losers" 0 (.ok demoMoversBody) =
      .ok (demoMoversBody.getOr "top_losers" (.arr [])) ∧
    getMarketMovers ⟨"KEY", [], 300000⟩ "active" 0 (.ok demoMoversBody) =
      .ok (demoMoversBody.getOr "most_actively_traded" (.arr [])) :=
  claim_C6.1 "KEY" 300000 0
    [("top_gainers", .arr [.str "G1"]), ("top_losers", .arr [.str "L1"]),
     ("most_actively_traded", .arr [.str "A1"])] rfl

/-- C8: `getGlobalQuote` on a response whose `Global Quote` mapping
holds `"01. symbol": "IBM"` and `"05. price": "139.12"` yields a Quote
with `symbol = "IBM"` and `price` the exact number `139.12`. -/
theorem claim_C8 :
    getGlobalQuote ⟨"KEY", [], 300000⟩ "IBM" 0
      (.ok (.obj [("Global Quote",
        .obj [("01. symbol", Json.str "IBM"),
              ("05. price", Json.str "139.12")])])) =
      .ok (some
        (Quote.mk (some (Json.str "IBM")) none none none
          (some (139.12 : ℚ)) none none none none none)) := by
  have hps : parseFloatChars ['1', '3', '9', '.', '1', '2'] =
      some ((1 : ℚ) * (((139 : ℕ) : ℚ) + ((12 : ℕ) : ℚ) / 10 ^ (2 : ℕ))) := rfl
  have herr : (Json.obj [("Global Quote",
      Json.obj [("01. symbol", Json.str "IBM"),
        ("05. price", Json.str "139.12")])]).getTruthy
      "Error Message" = none := rfl
  have hq : (Json.obj [("Global Quote",
      Json.obj [("01. symbol", Json.str "IBM"),
        ("05. price", Json.str "139.12")])]).getTruthy "Global Quote" =
      some (Json.obj [("01. symbol", Json.str "IBM"),
        ("05. price", Json.str "139.12")]) := rfl
  have hres : (makeRequest ⟨"KEY", [], 300000⟩
      [("function", PVal.s "GLOBAL_QUOTE"), ("symbol", PVal.s "IBM")] 0
      (.ok (.obj [("Global Quote",
        .obj [("01. symbol", Json.str "IBM"),
              ("05. price", Json.str "139.12")])]))).result =
      .ok (.obj [("Global Quote",
        .obj [("01. symbol", Json.str "IBM"),
              ("05. price", Json.str "139.12")])]) := by
    rw [makeRequest_empty_cache _ _ _ _ rfl]
    exact makeRequestMiss_result_ok _ _ _ _ _ herr
  simp only [getGlobalQuote, hres, hq]
  simp [parseGlobalQuote, jsParseFloat, jsParseInt, Json.getField,
    lookupKey, hps]
  norm_num

/-- C9: on a cache miss, `makeRequest` mutates the caller's `params`
object by appending the `apikey` credential entry before sending, so
the very same object afterwards has a different serialization — and
hence a different cache key — than the one the first call used. -/
theorem claim_C9 :
    ∀ (st : ClientState) (params : Params) (now : ℤ) (resp : FetchResult),
      cacheMiss st params now →
      lookupKey params "apikey" = none →
      (makeRequest st params now resp).params =
        params ++ [("apikey", PVal.s st.apiKey)] ∧
      serializeParams (makeRequest st params now resp).params ≠
        serializeParams params := by
  intro st params now resp hmiss hap
  rw [makeRequest_of_miss st params now resp hmiss, makeRequestMiss_params,
    mapSet_append_of_none _ _ _ hap]
  exact ⟨rfl, serializeParams_append_ne params _⟩

/-- Witness for C9 at a concrete input: a fresh client's first call on
a params object without an `apikey` field. -/
theorem claim_C9_witness :
    (makeRequest demoState demoParams 0 (.ok Json.null)).params =
      demoParams ++ [("apikey", PVal.s demoState.apiKey)] ∧
    serializeParams (makeRequest demoState demoParams 0
      (.ok Json.null)).params ≠ serializeParams demoParams :=
  claim_C9 demoState demoParams 0 (.ok Json.null)
    (by intro e he; simp [demoState, lookupKey] at he) rfl

/-- C10: every key present in the cache after a call is either a key
that was already there or the serialization of the params exactly as
the caller supplied them, computed before the credential is injected;
and the whole resulting cache — keys and entries — is independent of
the credential: two clients differing only in their `apiKey` end the
call with identical caches. -/
theorem claim_C10 :
    (∀ (st : ClientState) (params : Params) (now : ℤ) (resp : FetchResult)
       (k : String),
       k ∈ ((makeRequest st params now resp).cache).map Prod.fst →
       k ∈ (st.cache).map Prod.fst ∨ k = serializeParams params) ∧
    (∀ (cache : List (String × CacheEntry)) (cd : ℤ) (ak1 ak2 : String)
       (params : Params) (now : ℤ) (resp : FetchResult),
       (makeRequest ⟨ak1, cache, cd⟩ params now resp).cache =
         (makeRequest ⟨ak2, cache, cd⟩ params now resp).cache) := by
  constructor
  · intro st params now resp k hk
    cases hl : lookupKey st.cache (serializeParams params) with
    | some e =>
      by_cases hv : now - e.timestamp < st.cacheDuration
      · rw [show makeRequest st params now resp =
            ({ result := .ok e.data, cache := st.cache, params := params
               fetched := none, warnings := [] } : ReqResult) by
            simp [makeRequest, hl, hv]] at hk
        exact Or.inl hk
      · rw [show makeRequest st params now resp =
            makeRequestMiss st params (serializeParams params) now resp by
            simp [makeRequest, hl, hv]] at hk
        exact makeRequestMiss_cache_sub st params _ now resp k hk
    | none =>
      rw [show makeRequest st params now resp =
          makeRequestMiss st params (serializeParams params) now resp by
          simp [makeRequest, hl]] at hk
      exact makeRequestMiss_cache_sub st params _ now resp k hk
  · intro cache cd ak1 ak2 params now resp
    cases hl : lookupKey cache (serializeParams params) with
    | some e =>
      by_cases hv : now - e.timestamp < cd
      · simp [makeRequest, hl, hv]
      · cases resp with
        | notOk status => simp [makeRequest, hl, hv, makeRequestMiss]
        | ok body =>
          cases herr : body.getTruthy "Error Message" with
          | some v => simp [makeRequest, hl, hv, makeRequestMiss, herr]
          | none => simp [makeRequest, hl, hv, makeRequestMiss, herr]
    | none =>
      cases resp with
      | notOk status => simp [makeRequest, hl, makeRequestMiss]
      | ok body =>
        cases herr : body.getTruthy "Error Message" with
        | some v => simp [makeRequest, hl, makeRequestMiss, herr]
        | none => simp [makeRequest, hl, makeRequestMiss, herr]

/-- Witness for C10 at a concrete input: after a fresh client's first
successful call, the one key in the cache is the serialization of the
caller-supplied params. -/
theorem claim_C10_witness :
    serializeParams demoParams ∈
      (demoState.cache).map Prod.fst ∨
    serializeParams demoParams = serializeParams demoParams :=
  claim_C10.1 demoState demoParams 0 (.ok (Json.obj []))
    (serializeParams demoParams)
    (by rw [show (makeRequest demoState demoParams 0
        (.ok (Json.obj []))).cache =
        [(serializeParams demoParams,
          { data := Json.obj [], timestamp := 0 })] from rfl]
        simp)

end StockSim
